import Mathlib

set_option maxRecDepth 20000

/-!
Verification development for the RiskIQ repository.

The narrative layer (`backend/api/risk_summary.py`) is embedded over `PyRat`,
an exact unnormalized rational model of Python float values (all operations
are plain structural computations on `Int`/`Nat`, so the kernel can evaluate
them on concrete inputs).  The statistical layer (`backend/api/risk_models.py`)
is embedded over `ℝ`, since it involves square roots.
-/

deriving instance DecidableEq for Except

/-- Exact rational model of a Python float value.  `den` is positive for every
value built by the operations below from positive-denominator inputs; the
operations never normalize, so they kernel-evaluate without gcd. -/
structure PyRat where
  num : Int
  den : Nat
deriving DecidableEq

/-- The decimal literal m * 10^(-e), e.g. `pyDec 544 3` is 0.544. -/
def pyDec (m : Int) (e : Nat) : PyRat := ⟨m, 10 ^ e⟩

/-- The integer literal n as a `PyRat`. -/
def PyRat.ofInt (n : Int) : PyRat := ⟨n, 1⟩

def PyRat.add (a b : PyRat) : PyRat := ⟨a.num * b.den + b.num * a.den, a.den * b.den⟩

def PyRat.sub (a b : PyRat) : PyRat := ⟨a.num * b.den - b.num * a.den, a.den * b.den⟩

def PyRat.mul (a b : PyRat) : PyRat := ⟨a.num * b.num, a.den * b.den⟩

/-- Division; the sign is moved to the numerator so `den` stays a `Nat`.
Division by zero produces a junk value with `den = 0`; every reachable
division in the embedded code is guarded (see `_fallback_summary`, which
models Python's `ZeroDivisionError` explicitly). -/
def PyRat.div (a b : PyRat) : PyRat :=
  if b.num < 0 then ⟨-(a.num * (b.den : Int)), a.den * b.num.natAbs⟩
  else ⟨a.num * b.den, a.den * b.num.natAbs⟩

def PyRat.abs (a : PyRat) : PyRat := ⟨(a.num.natAbs : Int), a.den⟩

/-- `a < b` on exact rationals with positive denominators. -/
def PyRat.lt (a b : PyRat) : Bool := a.num * b.den < b.num * a.den

/-- `a > b` on exact rationals with positive denominators. -/
def PyRat.gt (a b : PyRat) : Bool := b.num * a.den < a.num * b.den

/-- Python truthiness / `== 0` test of a float value. -/
def PyRat.isZero (a : PyRat) : Bool := a.num == 0

/-- Python `min(a, b)` (keeps the first argument on ties). -/
def PyRat.pymin (a b : PyRat) : PyRat := if PyRat.lt b a then b else a

/-- Python `max(a, b)` (keeps the first argument on ties). -/
def PyRat.pymax (a b : PyRat) : PyRat := if PyRat.lt a b then b else a

/-- Round n / d (with d > 0) to the nearest integer, ties to even —
the rounding CPython uses when formatting with a fixed number of decimals. -/
def roundHalfEvenInt (n d : Int) : Int :=
  let q := Int.fdiv n d
  let r := Int.fmod n d
  if 2 * r < d then q
  else if 2 * r > d then q + 1
  else if q % 2 == 0 then q else q + 1

/-- The integer nearest (ties to even) to x * 10^d. -/
def scaledRound (x : PyRat) (d : Nat) : Int :=
  roundHalfEvenInt (x.num * (10 : Int) ^ d) (x.den : Int)

def sLen (s : String) : Nat := s.data.length

def sTake (s : String) (n : Nat) : String := String.mk (s.data.take n)

def sDrop (s : String) (n : Nat) : String := String.mk (s.data.drop n)

def padZeros (s : String) (k : Nat) : String :=
  if k ≤ sLen s then s else String.mk (List.replicate (k - sLen s) '0') ++ s

/-- Python fixed-point formatting `format(x, '.df')`: round-half-even at d
decimals, keep the sign of the value (so -0.001 at 2 decimals is "-0.00"). -/
def formatFixedAt (x : PyRat) (d : Nat) : String :=
  let n := scaledRound x d
  let sgn := if x.num < 0 then "-" else ""
  let s := padZeros (toString n.natAbs) (d + 1)
  if d == 0 then sgn ++ s
  else sgn ++ sTake s (sLen s - d) ++ "." ++ sDrop s (sLen s - d)

/-- Python percent formatting `format(x, '.d%')`: multiply by 100, fixed
format at d decimals, then a percent sign. -/
def formatPct (x : PyRat) (d : Nat) : String :=
  formatFixedAt (PyRat.mul x (PyRat.ofInt 100)) d ++ "%"

/-- Python `format(x, '+.1f')`: one decimal with a forced sign. -/
def formatPlus1 (x : PyRat) : String :=
  (if x.num < 0 then "-" else "+") ++ formatFixedAt (PyRat.abs x) 1

/-- Insert thousands separators into a reversed digit list. -/
def groupRev : List Char → Nat → List Char
  | [], _ => []
  | c :: rest, k =>
    (if k ≠ 0 && k % 3 == 0 then [',', c] else [c]) ++ groupRev rest (k + 1)

/-- Python `format(x, ',.0f')`: round to an integer and group digits by 3. -/
def formatComma0 (x : PyRat) : String :=
  let n := scaledRound x 0
  (if x.num < 0 then "-" else "") ++
    String.mk ((groupRev (toString n.natAbs).data.reverse 0).reverse)

/-- Is p a leading segment of l? -/
def leadsWith : List Char → List Char → Bool
  | [], _ => true
  | _ :: _, [] => false
  | a :: as, b :: bs => a == b && leadsWith as bs

/-- Does l contain p as a contiguous segment? -/
def hasSubCL (p : List Char) : List Char → Bool
  | [] => leadsWith p []
  | c :: t => leadsWith p (c :: t) || hasSubCL p t

/-- Case-sensitive substring test on strings. -/
def strHas (s pat : String) : Bool := hasSubCL pat.data s.data

def joinSep (sep : String) : List String → String
  | [] => ""
  | [x] => x
  | x :: y :: xs => x ++ sep ++ joinSep sep (y :: xs)

/-!
Data model for the metrics dictionary consumed by `risk_summary.py`
(`generate_ai_summary`, `_fallback_summary`, `get_risk_level`).  A JSON field
holding a number can also be absent from its dict, or present with the value
`None` (as the aggregates are for an all-failed batch, see `app.py`); `PyVal`
distinguishes the three cases because `dict.get(k, 0)` maps absence to 0 but
keeps `None`, which then raises `TypeError` in arithmetic.
-/

inductive PyVal where
  | missing
  | pynone
  | num (v : PyRat)
deriving DecidableEq

/-- `portfolio_summary` as built by `app.py` (its keys may be absent in a
hand-built metrics dict, hence `PyVal`). -/
structure PortfolioFields where
  tickers : List String
  average_volatility : PyVal
  average_VaR_95 : PyVal
  average_CVaR_95 : PyVal
deriving DecidableEq

/-- The dict `{}` default used by `metrics_data.get("portfolio_summary", {})`. -/
def emptyPortfolioFields : PortfolioFields := ⟨[], .missing, .missing, .missing⟩

/-- A full per-ticker record as consumed by the narrative layer (the keys
`risk_summary.py` reads; the three forecast fields are read with `.get`, so
they are optional). -/
structure NarrRecord where
  ticker : String
  historical_volatility : PyRat
  VaR_95 : PyRat
  CVaR_95 : PyRat
  forecasted_volatility_garch : Option PyRat
  forecasted_volatility_xgboost : Option PyRat
  forecasted_volatility_lstm : Option PyRat
deriving DecidableEq

/-- One entry of the `details` list: either a full record or the minimal
error record `ticker`/`error` (tagged union of the two dict shapes). -/
inductive NarrDetail where
  | record (r : NarrRecord)
  | err (ticker : String) (msg : String)
deriving DecidableEq

/-- The metrics dictionary passed to the narrative layer. -/
structure MetricsData where
  portfolio_summary : Option PortfolioFields
  details : List NarrDetail
deriving DecidableEq

/-- `portfolio.get(key, 0)`: absence defaults to 0, `None` stays `None`. -/
def pyGetD0 : PyVal → PyVal
  | .missing => .num (PyRat.ofInt 0)
  | v => v

/-- Python `abs(v)`: raises `TypeError` when v is `None`. -/
def pyAbsE : PyVal → Except String PyRat
  | .num v => Except.ok (PyRat.abs v)
  | _ => Except.error "TypeError: bad operand type for abs(): NoneType"

/-- A numeric comparison with v: raises `TypeError` when v is `None`. -/
def pyNumE : PyVal → Except String PyRat
  | .num v => Except.ok v
  | _ => Except.error "TypeError: not supported between instances of NoneType and float"

/-- The five tier labels `get_risk_level` can return, ordered. -/
def RISK_TIERS : List String := ["LOW", "LOW-MODERATE", "MODERATE", "MODERATE-HIGH", "HIGH"]

/-- `get_risk_level` from `backend/api/risk_summary.py` (lines 582-600):
reads the portfolio aggregates (missing keys default to 0, `None` values
raise `TypeError`, modelled as `Except.error`) and walks the threshold
chain from HIGH downward. -/
def get_risk_level (m : MetricsData) : Except String String :=
  let portfolio := m.portfolio_summary.getD emptyPortfolioFields
  let avg_vol_raw := pyGetD0 portfolio.average_volatility
  match pyAbsE (pyGetD0 portfolio.average_CVaR_95) with
  | Except.error e => Except.error e
  | Except.ok avg_cvar =>
    match pyNumE avg_vol_raw with
    | Except.error e => Except.error e
    | Except.ok avg_vol =>
      Except.ok (
        if PyRat.gt avg_vol (pyDec 5 1) || PyRat.gt avg_cvar (pyDec 12 2) then "HIGH"
        else if PyRat.gt avg_vol (pyDec 4 1) || PyRat.gt avg_cvar (pyDec 9 2) then "MODERATE-HIGH"
        else if PyRat.gt avg_vol (pyDec 3 1) || PyRat.gt avg_cvar (pyDec 6 2) then "MODERATE"
        else if PyRat.gt avg_vol (pyDec 2 1) || PyRat.gt avg_cvar (pyDec 4 2) then "LOW-MODERATE"
        else "LOW")

/-- The cutoff table exactly as the specification states it, highest tier
first: (tier, volatility cutoff, |CVaR| cutoff). -/
def tierTable : List (String × PyRat × PyRat) :=
  [("HIGH", pyDec 5 1, pyDec 12 2),
   ("MODERATE-HIGH", pyDec 4 1, pyDec 9 2),
   ("MODERATE", pyDec 3 1, pyDec 6 2),
   ("LOW-MODERATE", pyDec 2 1, pyDec 4 2)]

/-- The tier the specification assigns: scan `tierTable` from the highest
tier downward, first tier whose volatility or |CVaR| cutoff is crossed wins,
else LOW. -/
def riskLevelSpec (vol cvarAbs : PyRat) : String :=
  (((tierTable.find? (fun t => PyRat.gt vol t.2.1 || PyRat.gt cvarAbs t.2.2)).map
    (fun t => t.1)).getD "LOW")

/-- Are all three forecast fields present and truthy (Python
`if garch and xgb and lstm`, where 0.0 is falsy)? -/
def forecastsTruthy (r : NarrRecord) : Bool :=
  match r.forecasted_volatility_garch, r.forecasted_volatility_xgboost,
        r.forecasted_volatility_lstm with
  | some g, some x, some l => !(PyRat.isZero g) && !(PyRat.isZero x) && !(PyRat.isZero l)
  | _, _, _ => false

/-- The trend word: `"increasing" if change > 5 else "decreasing" if change < -5
else "stable"`. -/
def trendWord (change : PyRat) : String :=
  if PyRat.gt change (PyRat.ofInt 5) then "increasing"
  else if PyRat.lt change (PyRat.ofInt (-5)) then "decreasing"
  else "stable"

/-- The single-ticker branch of `_fallback_summary` (risk_summary.py lines
415-492).  Fails only on Python's `ZeroDivisionError` when the forecast block
divides by a zero volatility. -/
def fallbackSingle (d : NarrRecord) : Except String String :=
  let ticker := d.ticker
  let vol := d.historical_volatility
  let var := PyRat.abs d.VaR_95
  let cvar := PyRat.abs d.CVaR_95
  let riskTriple :=
    if PyRat.gt vol (pyDec 5 1) then
      ("EXTREME RISK", "Only for aggressive traders with very high risk tolerance",
       "Max 2-3% of portfolio")
    else if PyRat.gt vol (pyDec 4 1) then
      ("HIGH RISK", "Aggressive investors only", "Limit to 5-8% of portfolio")
    else if PyRat.gt vol (pyDec 3 1) then
      ("MODERATE-HIGH RISK", "Moderate to aggressive investors",
       "10-15% allocation recommended")
    else if PyRat.gt vol (pyDec 25 2) then
      ("MODERATE RISK", "Balanced portfolios", "15-20% allocation")
    else if PyRat.gt vol (pyDec 15 2) then
      ("LOW-MODERATE RISK", "Most investors", "Can be a core holding (20-30%)")
    else
      ("LOW RISK", "Conservative investors", "Suitable as core holding (30-40%)")
  let risk := riskTriple.1
  let investor := riskTriple.2.1
  let allocation := riskTriple.2.2
  let var_on_10k := PyRat.mul var (PyRat.ofInt 10000)
  let cvar_on_10k := PyRat.mul cvar (PyRat.ofInt 10000)
  let base :=
    "📊 " ++ ticker ++ " - Risk Analysis\n\n🎯 RISK LEVEL: " ++ risk ++
    "\nHistorical Volatility: " ++ formatPct vol 2 ++ " (annualized)\n\n📉 LOSS POTENTIAL:\n• Value at Risk (95% confidence): " ++
    formatPct var 2 ++ "\n  → On $10,000 investment: $" ++
    formatComma0 (PyRat.abs var_on_10k) ++ " maximum loss expected\n• Conditional VaR (worst 5% scenarios): " ++
    formatPct cvar 2 ++ "\n  → Average loss in bad scenarios: $" ++
    formatComma0 (PyRat.abs cvar_on_10k) ++ "\n\n🎓 WHAT THIS MEANS:\n" ++
    ticker ++ "\x27s " ++ formatPct vol 2 ++ " volatility means typical daily swings of ±" ++
    formatPct (PyRat.div vol (PyRat.ofInt 16)) 1 ++ ". At 95% confidence, daily losses shouldn\x27t exceed " ++
    formatPct var 2 ++ ". However, in the worst 5% of days, average loss is " ++
    formatPct cvar 2 ++ ".\n\n💡 RECOMMENDATION:\n• Investor Type: " ++ investor ++
    "\n• Position Size: " ++ allocation ++ "\n• Risk Management: Use stop losses at " ++
    formatPct (PyRat.mul var (pyDec 15 1)) 1 ++ ", monitor regularly\n"
  match d.forecasted_volatility_garch, d.forecasted_volatility_xgboost,
        d.forecasted_volatility_lstm with
  | some g, some x, some l =>
    if !(PyRat.isZero g) && !(PyRat.isZero x) && !(PyRat.isZero l) then
      if PyRat.isZero vol then Except.error "ZeroDivisionError: float division by zero"
      else
        let avg_forecast := PyRat.div (PyRat.add (PyRat.add g x) l) (PyRat.ofInt 3)
        let change := PyRat.mul (PyRat.sub (PyRat.div avg_forecast vol) (PyRat.ofInt 1)) (PyRat.ofInt 100)
        let trend := trendWord change
        Except.ok (base ++ "\n🔮 OUTLOOK:\nForecasted volatility: " ++
          formatPct avg_forecast 2 ++ " (" ++ trend ++ ", " ++ formatPlus1 change ++
          "% change)\nModels suggest risk is " ++ trend ++ " in the near term.\n")
    else Except.ok base
  | _, _, _ => Except.ok base

/-- Keep only the full records (`[d for d in details if "error" not in d]`). -/
def validOf (details : List NarrDetail) : List NarrRecord :=
  details.filterMap (fun d => match d with
    | NarrDetail.record r => some r
    | NarrDetail.err _ _ => none)

/-- Stable insertion of a record into a list sorted by descending volatility
(the record is placed before the first strictly less volatile one). -/
def insertDescVol (a : NarrRecord) : List NarrRecord → List NarrRecord
  | [] => [a]
  | b :: bs =>
    if PyRat.gt a.historical_volatility b.historical_volatility ||
       (a.historical_volatility.num * (b.historical_volatility.den : Int) ==
        b.historical_volatility.num * (a.historical_volatility.den : Int)) then
      a :: b :: bs
    else b :: insertDescVol a bs

/-- Python `sorted(valid_details, key=vol, reverse=True)` (stable descending). -/
def sortDescVol : List NarrRecord → List NarrRecord
  | [] => []
  | a :: as => insertDescVol a (sortDescVol as)

/-- The portfolio branch of `_fallback_summary` (risk_summary.py lines
495-579).  Fails (`TypeError`) exactly when one of the three aggregate fields
is present but `None`, in the Python evaluation order (VaR first, then CVaR at
their `abs(...)` bindings, then volatility at its first comparison). -/
def fallbackPortfolio (portfolio : PortfolioFields) (details : List NarrDetail) :
    Except String String :=
  let valid_details := validOf details
  let n := valid_details.length
  let tickers_list := valid_details.map (fun r => r.ticker)
  let tickers_display0 := joinSep ", " (tickers_list.take 5)
  let tickers_display :=
    if 5 < n then tickers_display0 ++ " (+" ++ toString (n - 5) ++ " more)"
    else tickers_display0
  match pyAbsE (pyGetD0 portfolio.average_VaR_95) with
  | Except.error e => Except.error e
  | Except.ok avg_var =>
  match pyAbsE (pyGetD0 portfolio.average_CVaR_95) with
  | Except.error e => Except.error e
  | Except.ok avg_cvar =>
  let vol_list := valid_details.map (fun r => r.historical_volatility)
  let vol_min := match vol_list with
    | [] => PyRat.ofInt 0
    | x :: xs => xs.foldl PyRat.pymin x
  let vol_max := match vol_list with
    | [] => PyRat.ofInt 0
    | x :: xs => xs.foldl PyRat.pymax x
  let vol_range := PyRat.sub vol_max vol_min
  match pyNumE (pyGetD0 portfolio.average_volatility) with
  | Except.error e => Except.error e
  | Except.ok avg_vol =>
  let riskPair :=
    if PyRat.gt avg_vol (pyDec 4 1) then ("HIGH RISK", "Aggressive growth investors")
    else if PyRat.gt avg_vol (pyDec 3 1) then ("MODERATE-HIGH RISK", "Growth-oriented investors")
    else if PyRat.gt avg_vol (pyDec 25 2) then ("MODERATE RISK", "Balanced investors")
    else if PyRat.gt avg_vol (pyDec 2 1) then ("LOW-MODERATE RISK", "Conservative to moderate investors")
    else ("LOW RISK", "Conservative investors")
  let risk := riskPair.1
  let investor := riskPair.2
  let div_quality :=
    if PyRat.lt vol_range (pyDec 15 2) then "Well-diversified"
    else if PyRat.lt vol_range (pyDec 25 2) then "Moderately diversified"
    else "Concentrated risk profile"
  let sorted_stocks := sortDescVol valid_details
  let top_risky := joinSep ", " ((sorted_stocks.take 3).map (fun r =>
    r.ticker ++ " (" ++ formatPct r.historical_volatility 1 ++ ")"))
  let var_on_100k := PyRat.mul avg_var (PyRat.ofInt 100000)
  let cvar_on_100k := PyRat.mul avg_cvar (PyRat.ofInt 100000)
  Except.ok ("📊 Portfolio Risk Analysis - " ++ toString n ++ " Securities\n\nHoldings: " ++
    tickers_display ++ "\n\n🎯 OVERALL RISK: " ++ risk ++ "\nAverage Volatility: " ++
    formatPct avg_vol 2 ++ "\n\n📉 LOSS POTENTIAL (on $100,000 portfolio):\n• Value at Risk (95%): $" ++
    formatComma0 var_on_100k ++ "\n• Conditional VaR (worst 5%): $" ++
    formatComma0 cvar_on_100k ++ "\n\n📊 DIVERSIFICATION: " ++ div_quality ++
    "\n• Volatility Range: " ++ formatPct vol_min 1 ++ " to " ++ formatPct vol_max 1 ++
    "\n• Spread: " ++ formatPct vol_range 1 ++ " percentage points\n\n⚠️ HIGHEST RISK POSITIONS:\n" ++
    top_risky ++ "\n\n💡 RECOMMENDATION:\n• Suitable For: " ++ investor ++
    "\n• Diversification: " ++ div_quality ++ " - " ++
    (if PyRat.gt vol_range (pyDec 25 2) then "consider adding lower volatility assets"
     else "good risk distribution") ++
    "\n• Monitoring: " ++
    (if PyRat.gt avg_vol (pyDec 3 1) then "Daily during volatile periods"
     else "Weekly review recommended") ++
    "\n• Action: " ++
    (if PyRat.gt avg_vol (pyDec 35 2) then "Consider reducing exposure to highest volatility stocks"
     else "Maintain current allocation with quarterly rebalancing") ++ "\n")

/-- `_fallback_summary` from risk_summary.py (lines 408-579).  A single
`details` entry goes to the single-ticker branch; accessing
`d["historical_volatility"]` on an error record there raises `KeyError`
(modelled as `Except.error`). -/
def _fallback_summary (m : MetricsData) : Except String String :=
  let portfolio := m.portfolio_summary.getD emptyPortfolioFields
  match m.details with
  | [NarrDetail.record r] => fallbackSingle r
  | [NarrDetail.err _ _] => Except.error "KeyError: historical_volatility"
  | details => fallbackPortfolio portfolio details

/-- One outcome of `requests.post` to the narrative service, as seen by
`_call_perplexity`: HTTP 200 (with or without a usable `choices` entry),
401, 429, any other status code, or a timeout. -/
inductive ApiResponse where
  | success (content : Option String)
  | unauthorized
  | rateLimited
  | otherStatus (code : Nat)
  | timeout
deriving DecidableEq

/-- The retry loop of `_call_perplexity` (risk_summary.py lines 352-405).
`oracle n` is the network outcome of the attempt with index n; `fuel` is the
number of loop iterations left (initially `max_retries`).  The second
component counts how many network requests were issued.  Branching follows
the source: 200 with content returns; 200 without content raises and is
retried unless this is the last attempt; 401 raises immediately (its message
matches the `"Invalid"`/`"key"` re-raise guard); 429 always continues (so
three 429s fall out of the loop into the final raise); any other status and
timeouts retry unless this is the last attempt. -/
def _call_perplexity_go (oracle : Nat → ApiResponse) (max_retries attempt fuel : Nat) :
    Except String String × Nat :=
  match fuel with
  | 0 => (Except.error "Perplexity API failed after retries", 0)
  | fuel' + 1 =>
    match oracle attempt with
    | ApiResponse.success (some content) => (Except.ok content, 1)
    | ApiResponse.success none =>
      if attempt < max_retries - 1 then
        let r := _call_perplexity_go oracle max_retries (attempt + 1) fuel'
        (r.1, r.2 + 1)
      else (Except.error "Unexpected API response format", 1)
    | ApiResponse.unauthorized => (Except.error "Invalid Perplexity API key", 1)
    | ApiResponse.rateLimited =>
      let r := _call_perplexity_go oracle max_retries (attempt + 1) fuel'
      (r.1, r.2 + 1)
    | ApiResponse.otherStatus code =>
      if attempt < max_retries - 1 then
        let r := _call_perplexity_go oracle max_retries (attempt + 1) fuel'
        (r.1, r.2 + 1)
      else (Except.error ("API failed with status " ++ toString code), 1)
    | ApiResponse.timeout =>
      if attempt < max_retries - 1 then
        let r := _call_perplexity_go oracle max_retries (attempt + 1) fuel'
        (r.1, r.2 + 1)
      else (Except.error "Request timed out", 1)

/-- `_call_perplexity(prompt, token, max_retries=3)`: run the retry loop from
attempt 0. -/
def _call_perplexity (oracle : Nat → ApiResponse) (max_retries : Nat) :
    Except String String × Nat :=
  _call_perplexity_go oracle max_retries 0 max_retries

/-- `generate_ai_summary` from risk_summary.py (lines 6-39), instrumented with
the number of network requests issued (second component).  `create_prompt`
stands for `_create_prompt` (whose text content is irrelevant to every claim
about this function, so it is kept as a parameter; an `Except.error` models an
exception escaping it); `env_token` is `os.getenv("PERPLEXITY_API_KEY")`.
With no token the fallback runs directly (0 requests); with a token, any
exception from the try block — prompt building or the exhausted/failed call —
is caught and answered with the same fallback. -/
def generate_ai_summary (create_prompt : MetricsData → String → Except String String)
    (m : MetricsData) (style : String) (perplexity_token env_token : Option String)
    (oracle : Nat → ApiResponse) : Except String String × Nat :=
  let token := match perplexity_token with
    | some t => some t
    | none => env_token
  match token with
  | none => (_fallback_summary m, 0)
  | some _ =>
    match create_prompt m style with
    | Except.error _ => (_fallback_summary m, 0)
    | Except.ok _ =>
      match _call_perplexity oracle 3 with
      | (Except.ok s, k) => (Except.ok s, k)
      | (Except.error _, k) => (_fallback_summary m, k)

/-- Is a `PyVal` a number or an absent key (i.e. not Python `None`)? -/
def pvNumOrMissing : PyVal → Bool
  | PyVal.pynone => false
  | _ => true

/-- The syntactic well-formedness under which the narrative fallback and
`get_risk_level` are total: the single `details` entry (if the list is a
singleton) is a full record whose forecast block does not divide by a zero
volatility, and the aggregate fields that are read are numbers or absent —
never an explicit `None`. -/
def narrOk (m : MetricsData) : Bool :=
  let p := m.portfolio_summary.getD emptyPortfolioFields
  (match m.details with
   | [NarrDetail.err _ _] => false
   | [NarrDetail.record r] => !(forecastsTruthy r && PyRat.isZero r.historical_volatility)
   | _ => pvNumOrMissing p.average_VaR_95)
  && pvNumOrMissing p.average_volatility && pvNumOrMissing p.average_CVaR_95

/-!
Statistical layer, `backend/api/risk_models.py`, over `ℝ`.  A return series
is the NaN-free list `hist["Return"].dropna()`.  `pandas.Series.std()` is the
sample standard deviation (ddof = 1); `scipy.stats.norm.ppf(p, mu, sigma)` is
`mu + sigma * z` where `z` is the standard normal quantile at p, kept as a
parameter (its numeric value is irrelevant to every claim proved here).
-/

noncomputable def sampleMean (l : List ℝ) : ℝ := l.sum / l.length

/-- Sample variance with ddof = 1, as `pandas.Series.std()` squares it. -/
noncomputable def sampleVariance (l : List ℝ) : ℝ :=
  ((l.map (fun x => (x - sampleMean l) ^ 2)).sum) / ((l.length : ℝ) - 1)

noncomputable def sampleStd (l : List ℝ) : ℝ := Real.sqrt (sampleVariance l)

/-- `compute_volatility` (risk_models.py lines 23-45):
`returns.std() * np.sqrt(252)`. -/
noncomputable def compute_volatility (returns : List ℝ) : ℝ :=
  sampleStd returns * Real.sqrt 252

/-- `compute_var` (risk_models.py lines 48-68):
`norm.ppf(1 - confidence_level, mu, sigma) = mu + sigma * z` with
`z = Phi_inv(1 - confidence_level)` kept as a parameter. -/
noncomputable def compute_var (z : ℝ) (returns : List ℝ) : ℝ :=
  sampleMean returns + sampleStd returns * z

/-- `compute_cvar` (risk_models.py lines 71-90):
`returns[returns < var].mean()` with `var = compute_var(returns)`.
(The Python mean of an empty selection is NaN; the claims about this function
assume the selection is non-empty.) -/
noncomputable def compute_cvar (z : ℝ) (returns : List ℝ) : ℝ :=
  sampleMean (returns.filter (fun x => decide (x < compute_var z returns)))

/-- The specification-side standard deviation, written through the textbook
computational identity (sum of squares minus n times the squared mean over
n - 1) so that agreement with `compute_volatility` is a real algebraic fact
rather than a definitional one. -/
noncomputable def specVariance (l : List ℝ) : ℝ :=
  ((l.map (fun x => x ^ 2)).sum - (l.length : ℝ) * sampleMean l ^ 2) /
    ((l.length : ℝ) - 1)

noncomputable def specStdev (l : List ℝ) : ℝ := Real.sqrt (specVariance l)

/-- One row of the prepared price history (`Date`, `Close`, `Return`). -/
structure ChartRow where
  date : String
  close : ℝ
  ret : ℝ

/-- The effectful collaborators of `get_risk_metrics`: the prepared history
from `prepare_data` (which can raise, e.g. on insufficient data), the
best-effort currency lookup (the whole `try` block; an exception is caught
and replaced by "USD"), the three forecast models — each either a forecast or
a raised exception (e.g. `FileNotFoundError` for a missing artifact, a
non-convergence error for GARCH) — and `round(x, 5)` from
`convert_numpy_types`, kept abstract. -/
structure RiskEnv where
  prepare_data : Except String (List ChartRow)
  currency_info : Except String (Option String)
  run_garch : List ℝ → Except String ℝ
  run_xgboost : List ℝ → Except String ℝ
  run_lstm : List ℝ → Except String ℝ
  round5 : ℝ → ℝ

/-- The full per-ticker record built by `get_risk_metrics`. -/
structure RiskMetricsRecord where
  ticker : String
  historical_volatility : ℝ
  VaR_95 : ℝ
  CVaR_95 : ℝ
  forecasted_volatility_garch : ℝ
  forecasted_volatility_xgboost : ℝ
  forecasted_volatility_lstm : ℝ
  historical_data : List ChartRow
  currency : String

/-- `get_risk_metrics` from risk_models.py (lines 262-307): fetch history,
best-effort currency, historical metrics, then the three forecasts — run
sequentially with no exception handling, so the first model failure
propagates and aborts the whole record. -/
noncomputable def get_risk_metrics (z : ℝ) (env : RiskEnv) (ticker : String) :
    Except String RiskMetricsRecord :=
  match env.prepare_data with
  | Except.error e => Except.error e
  | Except.ok hist =>
  let currency := (env.currency_info.toOption.getD none).getD "USD"
  let returns := hist.map (fun r => r.ret)
  let hist_vol := compute_volatility returns
  let var_95 := compute_var z returns
  let cvar_95 := compute_cvar z returns
  match env.run_garch returns with
  | Except.error e => Except.error e
  | Except.ok garch_vol =>
  match env.run_xgboost returns with
  | Except.error e => Except.error e
  | Except.ok xgb_vol =>
  match env.run_lstm returns with
  | Except.error e => Except.error e
  | Except.ok lstm_vol =>
  let hist_chart := hist.drop (hist.length - 252)
  Except.ok
    { ticker := ticker
      historical_volatility := env.round5 hist_vol
      VaR_95 := env.round5 var_95
      CVaR_95 := env.round5 cvar_95
      forecasted_volatility_garch := env.round5 garch_vol
      forecasted_volatility_xgboost := env.round5 xgb_vol
      forecasted_volatility_lstm := env.round5 lstm_vol
      historical_data := hist_chart
      currency := currency }

/-!
Portfolio aggregator, `backend/api/app.py`, `get_portfolio_risk`
(lines 69-98).  The per-ticker computation is a parameter f (in the source it
is `get_risk_metrics`, whose result dict echoes the input ticker).
-/

/-- One slot of the response `details` array: a full record or the minimal
error record `{ticker, error}`. -/
inductive PortfolioDetail where
  | record (r : RiskMetricsRecord)
  | err (ticker : String) (msg : String)

def detailTicker : PortfolioDetail → String
  | PortfolioDetail.record r => r.ticker
  | PortfolioDetail.err t _ => t

/-- The `results` list: one entry per input ticker, in input order; an
exception from f is caught and converted to `{ticker, error: str(e)}`. -/
noncomputable def tickerDetails (f : String → Except String RiskMetricsRecord)
    (tickers : List String) : List PortfolioDetail :=
  tickers.map (fun t => match f t with
    | Except.ok d => PortfolioDetail.record d
    | Except.error e => PortfolioDetail.err t e)

/-- `valid = [r for r in results if "error" not in r]`. -/
noncomputable def validRecords (f : String → Except String RiskMetricsRecord)
    (tickers : List String) : List RiskMetricsRecord :=
  (tickerDetails f tickers).filterMap (fun d => match d with
    | PortfolioDetail.record r => some r
    | PortfolioDetail.err _ _ => none)

/-- The response payload of `/portfolio_risk` (minus the LLM summary text,
which is outside this module). -/
structure PortfolioResponse where
  tickers : List String
  average_volatility : Option ℝ
  average_VaR_95 : Option ℝ
  average_CVaR_95 : Option ℝ
  details : List PortfolioDetail

/-- `get_portfolio_risk` from app.py: convert per-ticker failures to error
records, average the three metrics over the valid records only, and answer
`None` aggregates when no record is valid. -/
noncomputable def get_portfolio_risk (f : String → Except String RiskMetricsRecord)
    (tickers : List String) : PortfolioResponse :=
  let results := tickerDetails f tickers
  let valid := validRecords f tickers
  let agg : Option ℝ × Option ℝ × Option ℝ :=
    match valid with
    | [] => (none, none, none)
    | _ :: _ =>
      (some ((valid.map (fun r => r.historical_volatility)).sum / (valid.length : ℝ)),
       some ((valid.map (fun r => r.VaR_95)).sum / (valid.length : ℝ)),
       some ((valid.map (fun r => r.CVaR_95)).sum / (valid.length : ℝ)))
  { tickers := valid.map (fun r => r.ticker)
    average_volatility := agg.1
    average_VaR_95 := agg.2.1
    average_CVaR_95 := agg.2.2
    details := results }

/-!
Concrete inputs used by counterexamples and witnesses.
-/

/-- The end-to-end scenario of the specification: a single ticker with
volatility 0.544, VaR_95 = -0.0578, CVaR_95 = -0.0961 (and the
portfolio_summary mirror that `/risk/ticker` builds). -/
def highRiskScenario : MetricsData :=
  { portfolio_summary := some
      { tickers := ["TICK"]
        average_volatility := PyVal.num (pyDec 544 3)
        average_VaR_95 := PyVal.num (pyDec (-578) 4)
        average_CVaR_95 := PyVal.num (pyDec (-961) 4) }
    details := [NarrDetail.record
      { ticker := "TICK"
        historical_volatility := pyDec 544 3
        VaR_95 := pyDec (-578) 4
        CVaR_95 := pyDec (-961) 4
        forecasted_volatility_garch := none
        forecasted_volatility_xgboost := none
        forecasted_volatility_lstm := none }] }

/-- The payload `app.py` produces for a batch whose single ticker failed:
one error record and `None` aggregates. -/
def failedBatchInput : MetricsData :=
  { portfolio_summary := some
      { tickers := []
        average_volatility := PyVal.pynone
        average_VaR_95 := PyVal.pynone
        average_CVaR_95 := PyVal.pynone }
    details := [NarrDetail.err "BAD" "Pretrained XGBoost model not found."] }

/-- A plain well-formed single-ticker metrics input. -/
def simpleSingleInput : MetricsData :=
  { portfolio_summary := some
      { tickers := ["TICK"]
        average_volatility := PyVal.num (pyDec 2 1)
        average_VaR_95 := PyVal.num (pyDec (-1) 2)
        average_CVaR_95 := PyVal.num (pyDec (-2) 2) }
    details := [NarrDetail.record
      { ticker := "TICK"
        historical_volatility := pyDec 2 1
        VaR_95 := pyDec (-1) 2
        CVaR_95 := pyDec (-2) 2
        forecasted_volatility_garch := none
        forecasted_volatility_xgboost := none
        forecasted_volatility_lstm := none }] }

/-- A network oracle that answers HTTP 503 to every request. -/
def oracle503 : Nat → ApiResponse := fun _ => ApiResponse.otherStatus 503

/-- A prompt builder that always succeeds (the content is irrelevant). -/
def promptOk : MetricsData → String → Except String String :=
  fun _ _ => Except.ok "prompt"

/-- A ticker environment in which the data fetch, GARCH and LSTM succeed but
the pretrained XGBoost artifact is missing. -/
noncomputable def envXgbMissing : RiskEnv :=
  { prepare_data := Except.ok
      [⟨"2024-01-02", 101, 0.01⟩, ⟨"2024-01-03", 102, 0.0099⟩,
       ⟨"2024-01-04", 100, -0.0196⟩]
    currency_info := Except.ok (some "USD")
    run_garch := fun _ => Except.ok 0.2
    run_xgboost := fun _ => Except.error "Pretrained XGBoost model not found."
    run_lstm := fun _ => Except.ok 0.25
    round5 := fun x => x }

/-- A per-ticker computation for which exactly the ticker "BBB" fails. -/
noncomputable def fOneFails : String → Except String RiskMetricsRecord :=
  fun t =>
    if t = "BBB" then Except.error "Pretrained LSTM model not found."
    else Except.ok
      { ticker := t
        historical_volatility := 0.3
        VaR_95 := -0.02
        CVaR_95 := -0.03
        forecasted_volatility_garch := 0.2
        forecasted_volatility_xgboost := 0.2
        forecasted_volatility_lstm := 0.2
        historical_data := []
        currency := "USD" }

/-- A per-ticker computation that always fails. -/
def fAllFail : String → Except String RiskMetricsRecord :=
  fun _ => Except.error "Insufficient price data"

theorem append_ne_empty_of_left (a b : String) (h : a ≠ "") : a ++ b ≠ "" := by
  intro hab
  apply h
  cases a with
  | mk da =>
    cases b with
    | mk db =>
      have hd : da ++ db = [] := congrArg String.data hab
      rcases List.append_eq_nil.mp hd with ⟨h1, _⟩
      simp [h1]

/-- C1: for every metrics input whose aggregates are numbers, `get_risk_level`
returns exactly the tier that the specification's cutoff table assigns when it
is scanned from the highest tier downward, with either threshold crossing its
cutoff promoting to that tier. -/
theorem get_risk_level_matches_tier_table (tks : List String) (v : PyRat) (w : PyVal)
    (c : PyRat) (ds : List NarrDetail) :
    get_risk_level ⟨some ⟨tks, PyVal.num v, w, PyVal.num c⟩, ds⟩ =
      Except.ok (riskLevelSpec v (PyRat.abs c)) := by
  cases h1 : (PyRat.gt v (pyDec 5 1) || PyRat.gt (PyRat.abs c) (pyDec 12 2)) <;>
  cases h2 : (PyRat.gt v (pyDec 4 1) || PyRat.gt (PyRat.abs c) (pyDec 9 2)) <;>
  cases h3 : (PyRat.gt v (pyDec 3 1) || PyRat.gt (PyRat.abs c) (pyDec 6 2)) <;>
  cases h4 : (PyRat.gt v (pyDec 2 1) || PyRat.gt (PyRat.abs c) (pyDec 4 2)) <;>
  simp [get_risk_level, riskLevelSpec, tierTable, pyGetD0, pyAbsE, pyNumE,
    List.find?, h1, h2, h3, h4]

/-- C10: when the portfolio_summary is absent, or present but lacking the
average_volatility and average_CVaR_95 keys, `get_risk_level` treats the
missing values as 0 and returns "LOW" instead of raising. -/
theorem get_risk_level_missing_defaults_to_low (tks : List String) (w : PyVal)
    (ds ds2 : List NarrDetail) :
    get_risk_level ⟨none, ds⟩ = Except.ok "LOW" ∧
    get_risk_level ⟨some ⟨tks, PyVal.missing, w, PyVal.missing⟩, ds2⟩ =
      Except.ok "LOW" := by
  constructor <;>
    simp [get_risk_level, emptyPortfolioFields, pyGetD0, pyAbsE, pyNumE,
      PyRat.gt, PyRat.abs, pyDec, PyRat.ofInt]


/-- C6: when the narrative service answers HTTP 503 on all three attempts,
`generate_ai_summary` with a credential returns exactly what it returns with
no credential configured, namely the deterministic `_fallback_summary` text
for the same metrics input. -/
theorem exhausted_retries_equal_no_credential
    (cp : MetricsData → String → Except String String) (m : MetricsData)
    (style : String) (tk : String) (ek : Option String) (oracle : Nat → ApiResponse)
    (h0 : oracle 0 = ApiResponse.otherStatus 503)
    (h1 : oracle 1 = ApiResponse.otherStatus 503)
    (h2 : oracle 2 = ApiResponse.otherStatus 503) :
    (generate_ai_summary cp m style (some tk) ek oracle).1 =
      (generate_ai_summary cp m style none none oracle).1 ∧
    (generate_ai_summary cp m style none none oracle).1 = _fallback_summary m := by
  have hcall : _call_perplexity oracle 3 =
      (Except.error "API failed with status 503", 3) := by
    simp [_call_perplexity, _call_perplexity_go, h0, h1, h2]
    rfl
  constructor
  · cases hcp : cp m style <;> simp [generate_ai_summary, hcp, hcall]
  · rfl

theorem exhausted_retries_equal_no_credential_witness :
    (generate_ai_summary promptOk simpleSingleInput "detailed" (some "tok") none
        oracle503).1 =
      (generate_ai_summary promptOk simpleSingleInput "detailed" none none
        oracle503).1 ∧
    (generate_ai_summary promptOk simpleSingleInput "detailed" none none
        oracle503).1 = _fallback_summary simpleSingleInput :=
  exhausted_retries_equal_no_credential promptOk simpleSingleInput "detailed"
    "tok" none oracle503 rfl rfl rfl

/-- C2 (counterexample): in a ticker environment where the data fetch and the
GARCH and LSTM models succeed but the pretrained XGBoost artifact is missing,
`get_risk_metrics` yields no record at all — the historical metrics and the
surviving models' forecasts are not produced. -/
theorem xgboost_failure_blocks_whole_ticker :
    get_risk_metrics 0 envXgbMissing "AAPL" =
      Except.error "Pretrained XGBoost model not found." := rfl

/-- C2 (as the code behaves): `get_risk_metrics` runs the three models
sequentially with no exception isolation, so a model failure aborts the whole
per-ticker computation and propagates the model's error. -/
theorem model_failure_aborts_per_ticker_metrics (z : ℝ) (env : RiskEnv)
    (t : String) (hist : List ChartRow) (g : ℝ) (e : String)
    (hp : env.prepare_data = Except.ok hist)
    (hg : env.run_garch (hist.map (fun r => r.ret)) = Except.ok g)
    (hx : env.run_xgboost (hist.map (fun r => r.ret)) = Except.error e) :
    get_risk_metrics z env t = Except.error e := by
  simp [get_risk_metrics, hp, hg, hx]

theorem model_failure_aborts_per_ticker_metrics_witness :
    get_risk_metrics 0 envXgbMissing "MSFT" =
      Except.error "Pretrained XGBoost model not found." :=
  model_failure_aborts_per_ticker_metrics 0 envXgbMissing "MSFT"
    [⟨"2024-01-02", 101, 0.01⟩, ⟨"2024-01-03", 102, 0.0099⟩,
     ⟨"2024-01-04", 100, -0.0196⟩] 0.2 "Pretrained XGBoost model not found."
    rfl rfl rfl

/-- C3: the aggregator emits exactly one detail per input ticker in input
order (failures becoming `{ticker, error}` records), and the summary tickers
list is exactly the successful tickers in input-relative order.  The `echo`
hypothesis records that the per-ticker computation echoes its ticker, as
`get_risk_metrics` does. -/
theorem portfolio_details_preserve_input_order
    (f : String → Except String RiskMetricsRecord) (tickers : List String)
    (echo : ∀ t r, f t = Except.ok r → r.ticker = t) :
    (get_portfolio_risk f tickers).details.map detailTicker = tickers ∧
    (get_portfolio_risk f tickers).tickers =
      tickers.filter (fun t => (f t).isOk) ∧
    (get_portfolio_risk f tickers).details =
      tickers.map (fun t => match f t with
        | Except.ok d => PortfolioDetail.record d
        | Except.error e => PortfolioDetail.err t e) := by
  refine ⟨?_, ?_, rfl⟩
  · show (tickerDetails f tickers).map detailTicker = tickers
    induction tickers with
    | nil => rfl
    | cons t ts ih =>
      cases hf : f t with
      | ok d => simp [tickerDetails, hf, detailTicker, echo t d hf] at ih ⊢
                exact ih
      | error e => simp [tickerDetails, hf, detailTicker] at ih ⊢
                   exact ih
  · show (validRecords f tickers).map (fun r => r.ticker) =
      tickers.filter (fun t => (f t).isOk)
    induction tickers with
    | nil => rfl
    | cons t ts ih =>
      cases hf : f t with
      | ok d =>
        simp [validRecords, tickerDetails, hf, Except.isOk, Except.toBool,
          List.filter_cons, echo t d hf] at ih ⊢
        exact ih
      | error e =>
        simp [validRecords, tickerDetails, hf, Except.isOk, Except.toBool,
          List.filter_cons] at ih ⊢
        exact ih

theorem portfolio_details_preserve_input_order_witness :
    (get_portfolio_risk fOneFails ["AAA", "BBB", "CCC"]).details.map detailTicker =
      ["AAA", "BBB", "CCC"] ∧
    (get_portfolio_risk fOneFails ["AAA", "BBB", "CCC"]).tickers =
      ["AAA", "BBB", "CCC"].filter (fun t => (fOneFails t).isOk) ∧
    (get_portfolio_risk fOneFails ["AAA", "BBB", "CCC"]).details =
      ["AAA", "BBB", "CCC"].map (fun t => match fOneFails t with
        | Except.ok d => PortfolioDetail.record d
        | Except.error e => PortfolioDetail.err t e) :=
  portfolio_details_preserve_input_order fOneFails ["AAA", "BBB", "CCC"]
    (by
      intro t r hr
      by_cases ht : t = "BBB"
      · simp [fOneFails, ht] at hr
      · simp [fOneFails, ht] at hr
        simp [← hr])

/-- C4: when no ticker in the batch produced a valid record, the three
aggregate fields of the portfolio summary are `None` — not zero and not an
error. -/
theorem empty_valid_yields_null_aggregates
    (f : String → Except String RiskMetricsRecord) (tickers : List String)
    (h : validRecords f tickers = []) :
    (get_portfolio_risk f tickers).average_volatility = none ∧
    (get_portfolio_risk f tickers).average_VaR_95 = none ∧
    (get_portfolio_risk f tickers).average_CVaR_95 = none := by
  simp [get_portfolio_risk, h]

theorem empty_valid_yields_null_aggregates_witness :
    validRecords fAllFail ["AAA", "BBB"] = [] ∧
    ((get_portfolio_risk fAllFail ["AAA", "BBB"]).average_volatility = none ∧
     (get_portfolio_risk fAllFail ["AAA", "BBB"]).average_VaR_95 = none ∧
     (get_portfolio_risk fAllFail ["AAA", "BBB"]).average_CVaR_95 = none) :=
  ⟨rfl, empty_valid_yields_null_aggregates fAllFail ["AAA", "BBB"] rfl⟩

theorem list_mean_le_of_forall_lt (l : List ℝ) (v : ℝ) (hne : l ≠ [])
    (hall : ∀ x ∈ l, x < v) : sampleMean l ≤ v := by
  have hlen : 0 < (l.length : ℝ) := by
    exact_mod_cast List.length_pos.mpr hne
  have hsum : l.sum ≤ (l.length : ℝ) * v := by
    have := List.sum_le_card_nsmul l v (fun x hx => le_of_lt (hall x hx))
    simpa [nsmul_eq_mul] using this
  rw [sampleMean, div_le_iff₀ hlen]
  linarith

/-- C8: `compute_cvar` is the mean of the return observations strictly below
the VaR threshold, and whenever that below-threshold subset is non-empty it is
at most `compute_var` as a signed value (the CVaR loss is at least as severe).
`z` is the standard normal quantile parameter of `compute_var`. -/
theorem cvar_is_mean_below_var_and_dominates (z : ℝ) (R : List ℝ)
    (h : R.filter (fun x => decide (x < compute_var z R)) ≠ []) :
    compute_cvar z R =
      sampleMean (R.filter (fun x => decide (x < compute_var z R))) ∧
    compute_cvar z R ≤ compute_var z R := by
  refine ⟨rfl, ?_⟩
  apply list_mean_le_of_forall_lt _ _ h
  intro x hx
  exact of_decide_eq_true (List.mem_filter.mp hx).2

theorem cvar_is_mean_below_var_and_dominates_witness :
    (([-1, 1] : List ℝ).filter (fun x => decide (x < compute_var 0 [-1, 1])) ≠ []) ∧
    (compute_cvar 0 [-1, 1] =
      sampleMean (([-1, 1] : List ℝ).filter
        (fun x => decide (x < compute_var 0 [-1, 1]))) ∧
     compute_cvar 0 [-1, 1] ≤ compute_var 0 [-1, 1]) := by
  have hvar : compute_var 0 ([-1, 1] : List ℝ) = 0 := by
    simp [compute_var, sampleMean]
  have hfil : ([-1, 1] : List ℝ).filter (fun x => decide (x < compute_var 0 [-1, 1])) =
      [-1] := by
    simp only [hvar]
    norm_num [List.filter_cons, List.filter_nil]
  have hne : ([-1, 1] : List ℝ).filter (fun x => decide (x < compute_var 0 [-1, 1])) ≠ [] := by
    rw [hfil]
    simp
  exact ⟨hne, cvar_is_mean_below_var_and_dominates 0 [-1, 1] hne⟩

theorem sum_sq_shift (c : ℝ) (l : List ℝ) :
    (l.map (fun x => (x - c) ^ 2)).sum =
      (l.map (fun x => x ^ 2)).sum - 2 * c * l.sum + l.length * c ^ 2 := by
  induction l with
  | nil => simp
  | cons a as ih =>
    simp only [List.map_cons, List.sum_cons, ih, List.length_cons]
    push_cast
    ring

/-- C9: for every non-empty return series, `compute_volatility` equals the
sample standard deviation (written through the independent computational
identity of `specStdev`) multiplied by the square root of 252. -/
theorem volatility_is_stdev_times_sqrt252 (R : List ℝ) (h : R ≠ []) :
    compute_volatility R = specStdev R * Real.sqrt 252 := by
  have hlen : (R.length : ℝ) ≠ 0 := by
    exact_mod_cast (List.length_pos.mpr h).ne'
  have hmean : (R.length : ℝ) * sampleMean R = R.sum := by
    field_simp [sampleMean]
  have hvar : sampleVariance R = specVariance R := by
    unfold sampleVariance specVariance
    congr 1
    rw [sum_sq_shift (sampleMean R) R, ← hmean]
    ring
  rw [compute_volatility, sampleStd, hvar, specStdev]

theorem volatility_is_stdev_times_sqrt252_witness :
    compute_volatility [1, 2] = specStdev [1, 2] * Real.sqrt 252 :=
  volatility_is_stdev_times_sqrt252 [1, 2] (by simp)

/-- C5 (counterexample): for the specification's end-to-end single-ticker
scenario (volatility 0.544, VaR -0.0578, CVaR -0.0961) the deterministic
fallback narrative does not contain the assigned tier label "HIGH" anywhere —
the single-ticker fallback uses its own label scale and prints
"EXTREME RISK" for this input. -/
theorem fallback_narrative_lacks_tier_label :
    (_fallback_summary highRiskScenario).map (fun s => strHas s "HIGH") =
      Except.ok false := by decide

/-- C5 (amended): for that scenario the assigned risk level is "HIGH"
(0.544 > 0.50), and the fallback narrative contains the fallback's own risk
label "EXTREME RISK" together with both the VaR and CVaR percentages
("5.78%" and "9.61%"). -/
theorem high_risk_scenario_class_and_narrative :
    get_risk_level highRiskScenario = Except.ok "HIGH" ∧
    (_fallback_summary highRiskScenario).map (fun s =>
      strHas s "EXTREME RISK" && strHas s "5.78%" && strHas s "9.61%") =
      Except.ok true := by decide

/-- C7 (counterexample): on the syntactically valid payload that `app.py`
produces for a batch whose single ticker failed (one error record, `None`
aggregates), the fallback raises `KeyError` instead of producing a summary,
and `get_risk_level` raises `TypeError` instead of producing a tier. -/
theorem fallback_raises_on_single_error_record :
    _fallback_summary failedBatchInput =
      Except.error "KeyError: historical_volatility" ∧
    get_risk_level failedBatchInput =
      Except.error "TypeError: bad operand type for abs(): NoneType" := by decide


theorem get_risk_level_total_of_fields (m : MetricsData)
    (hvol : pvNumOrMissing
      (m.portfolio_summary.getD emptyPortfolioFields).average_volatility = true)
    (hcv : pvNumOrMissing
      (m.portfolio_summary.getD emptyPortfolioFields).average_CVaR_95 = true) :
    (get_risk_level m).map (fun t => RISK_TIERS.contains t) = Except.ok true := by
  rcases hv : (m.portfolio_summary.getD emptyPortfolioFields).average_volatility
    with _ | _ | v <;>
  rcases hc : (m.portfolio_summary.getD emptyPortfolioFields).average_CVaR_95
    with _ | _ | c <;>
  rw [hv] at hvol <;> rw [hc] at hcv <;>
  first
  | exact Bool.noConfusion hvol
  | exact Bool.noConfusion hcv
  | (simp [get_risk_level, hv, hc, pyGetD0, pyAbsE, pyNumE, Except.map]
     split_ifs <;> decide)

theorem map_decide_empty_ok (s : String) (h : s ≠ "") :
    (Except.ok s : Except String String).map (fun t => decide (t = "")) =
      Except.ok false := by
  simp [Except.map, h]

theorem fallback_single_total (r : NarrRecord)
    (h : (forecastsTruthy r && PyRat.isZero r.historical_volatility) = false) :
    (fallbackSingle r).map (fun s => decide (s = "")) = Except.ok false := by
  unfold fallbackSingle
  rcases hg : r.forecasted_volatility_garch with _ | g <;>
  rcases hx : r.forecasted_volatility_xgboost with _ | x <;>
  rcases hl : r.forecasted_volatility_lstm with _ | l <;>
  simp only [hg, hx, hl] <;>
  (try simp only [forecastsTruthy, hg, hx, hl] at h)
  all_goals (first
    | exact map_decide_empty_ok _ (by (repeat apply append_ne_empty_of_left); decide)
    | (split
       all_goals (first
         | exact map_decide_empty_ok _ (by (repeat apply append_ne_empty_of_left); decide)
         | (split
            all_goals (first
              | exact map_decide_empty_ok _
                  (by (repeat apply append_ne_empty_of_left); decide)
              | simp_all)))))

theorem fallback_portfolio_total (p : PortfolioFields) (details : List NarrDetail)
    (hvar : pvNumOrMissing p.average_VaR_95 = true)
    (hcv : pvNumOrMissing p.average_CVaR_95 = true)
    (hvol : pvNumOrMissing p.average_volatility = true) :
    (fallbackPortfolio p details).map (fun s => decide (s = "")) =
      Except.ok false := by
  unfold fallbackPortfolio
  rcases ha : p.average_VaR_95 with _ | _ | a <;> rw [ha] at hvar <;>
  rcases hb : p.average_CVaR_95 with _ | _ | b <;> rw [hb] at hcv <;>
  rcases hc : p.average_volatility with _ | _ | c <;> rw [hc] at hvol <;>
  first
  | exact Bool.noConfusion hvar
  | exact Bool.noConfusion hcv
  | exact Bool.noConfusion hvol
  | (simp only [ha, hb, hc, pyGetD0, pyAbsE, pyNumE]
     exact map_decide_empty_ok _ (by (repeat apply append_ne_empty_of_left); decide))

/-- C7 (amended): for every metrics input that is well-formed in the sense of
`narrOk` — the single `details` entry, when there is exactly one, is a full
record (not an error record) whose forecast block does not divide by a zero
volatility, and the aggregate fields read are numbers or absent rather than
`None` — the fallback produces a non-empty summary string, `get_risk_level`
produces one of the five tiers, and the no-credential path issues zero
network requests while returning exactly the fallback text. -/
theorem fallback_path_total_and_offline (m : MetricsData)
    (cp : MetricsData → String → Except String String) (style : String)
    (oracle : Nat → ApiResponse) (h : narrOk m = true) :
    (_fallback_summary m).map (fun s => decide (s = "")) = Except.ok false ∧
    (get_risk_level m).map (fun t => RISK_TIERS.contains t) = Except.ok true ∧
    generate_ai_summary cp m style none none oracle = (_fallback_summary m, 0) := by
  rcases m with ⟨ps, details⟩
  rcases details with _ | ⟨d, rest⟩
  · simp only [narrOk, Bool.and_eq_true] at h
    obtain ⟨⟨hbranch, hvol⟩, hcv⟩ := h
    exact ⟨fallback_portfolio_total _ _ hbranch hcv hvol,
      get_risk_level_total_of_fields ⟨ps, []⟩ hvol hcv, rfl⟩
  · rcases rest with _ | ⟨d2, rest2⟩
    · rcases d with r | te
      · simp only [narrOk, Bool.and_eq_true] at h
        obtain ⟨⟨hbranch, hvol⟩, hcv⟩ := h
        exact ⟨fallback_single_total r
          (by revert hbranch
              cases (forecastsTruthy r && PyRat.isZero r.historical_volatility) <;> simp),
          get_risk_level_total_of_fields ⟨ps, [NarrDetail.record r]⟩ hvol hcv, rfl⟩
      · simp [narrOk] at h
    · rcases d with r | te <;>
        (simp only [narrOk, Bool.and_eq_true] at h
         obtain ⟨⟨hbranch, hvol⟩, hcv⟩ := h
         exact ⟨fallback_portfolio_total _ _ hbranch hcv hvol,
           get_risk_level_total_of_fields _ hvol hcv, rfl⟩)

theorem fallback_path_total_and_offline_witness :
    narrOk simpleSingleInput = true ∧
    ((_fallback_summary simpleSingleInput).map (fun s => decide (s = "")) =
        Except.ok false ∧
      (get_risk_level simpleSingleInput).map (fun t => RISK_TIERS.contains t) =
        Except.ok true ∧
      generate_ai_summary promptOk simpleSingleInput "concise" none none oracle503 =
        (_fallback_summary simpleSingleInput, 0)) :=
  ⟨by decide, fallback_path_total_and_offline simpleSingleInput promptOk "concise"
    oracle503 (by decide)⟩
